import Mathlib

/- Shallow embedding of the DiamondFire.py template codec (src/df/values.py,
   src/df/code.py, src/df/template.py) and the CodeClient session protocol
   (src/df/codeclient.py).

   Modeling conventions:
   * Python floats are modeled as integers: the code never performs arithmetic
     on them beyond identity (the only numeric arithmetic is on Potion
     duration/amplifier, which are ints in the source).
   * JSON values are the inductive `JVal`; Python dicts are insertion-ordered
     association lists with unique keys, matching CPython dict semantics.
   * Python exceptions are the explicit `PyErr` type carried by `Except`.
   * Socket I/O is modeled by returning the list of sent command strings and
     taking the (optional) received response as an argument; `none` stands for
     a receive that times out (websockets raises TimeoutError). -/

inductive JVal where
  | null
  | bool (b : Bool)
  | int (n : Int)
  | str (s : String)
  | arr (xs : List JVal)
  | obj (kvs : List (String × JVal))

/-- Python exceptions raised by the embedded code. -/
inductive PyErr where
  | keyError (k : String)
  | valueError
  | typeError
  | attributeError
  | recursionError
  | overflowError
  | timeoutError
  | malformedItem (msg : String)
  | malformedCodeBlock (msg : String)
  | malformedTemplate (msg : String)
  | ccOutOfScope (msg : String)
  | ccInvalidToken
  | sendToMinecraft (msg : String)
deriving DecidableEq, Repr

/-- Python dict lookup `d.get(k)` (keys are unique; first binding wins). -/
def findKey (kvs : List (String × JVal)) (k : String) : Option JVal :=
  match kvs with
  | [] => none
  | (k', v) :: rest => if k' = k then some v else findKey rest k

/-- Python dict assignment `d[k] = v`: update in place if the key exists,
    else append at the end (insertion order). -/
def setKey (kvs : List (String × JVal)) (k : String) (v : JVal) :
    List (String × JVal) :=
  match kvs with
  | [] => [(k, v)]
  | (k', v') :: rest =>
    if k' = k then (k', v) :: rest else (k', v') :: setKey rest k v

/-- Python subscript `j[k]` on a JSON value: KeyError when the key is missing,
    TypeError when the value is not a dict. -/
def jget (j : JVal) (k : String) : Except PyErr JVal :=
  match j with
  | .obj kvs =>
    match findKey kvs k with
    | some v => .ok v
    | none => .error (.keyError k)
  | _ => .error .typeError

def jvalIsStr (j : JVal) (s : String) : Bool :=
  match j with
  | .str t => t = s
  | _ => false

def jvalIsInt (j : JVal) : Bool :=
  match j with
  | .int _ => true
  | _ => false

def jvalIsObj (j : JVal) : Bool :=
  match j with
  | .obj _ => true
  | _ => false

/- Coercions from JSON values into the field types declared by the Python
   constructors' annotations.  The source stores the raw JSON value without
   conversion; our structures are typed, so off-type values are coerced to a
   default.  No theorem below observes a coerced default: every concrete input
   is well-typed, and the universally quantified theorems never pass an
   off-type value into these. -/
def jvalAsStr (j : JVal) : String :=
  match j with
  | .str s => s
  | _ => ""

def jvalAsInt (j : JVal) : Int :=
  match j with
  | .int n => n
  | _ => 0

def jvalAsBool (j : JVal) : Bool :=
  match j with
  | .bool b => b
  | _ => false

/-- Python truthiness of a JSON value (`if x:`). -/
def jvalTruthy (j : JVal) : Bool :=
  match j with
  | .null => false
  | .bool b => b
  | .int n => n != 0
  | .str s => s ≠ ""
  | .arr xs => !xs.isEmpty
  | .obj kvs => !kvs.isEmpty

/- ===== src/df/enums.py ===== -/

inductive CodeBlockCategory where
  | PLAYER_ACTION | IF_PLAYER | START_PROCESS | CALL_FUNCTION | CONTROL
  | SET_VARIABLE | ENTITY_EVENT | PLAYER_EVENT | FUNCTION | IF_ENTITY
  | ENTITY_ACTION | IF_VARIABLE | SELECT_OBJECT | GAME_ACTION | ELSE
  | PROCESS | REPEAT | IF_GAME
deriving DecidableEq, Repr

def CodeBlockCategory.value : CodeBlockCategory → String
  | .PLAYER_ACTION => "player_action"
  | .IF_PLAYER => "if_player"
  | .START_PROCESS => "start_process"
  | .CALL_FUNCTION => "call_func"
  | .CONTROL => "control"
  | .SET_VARIABLE => "set_var"
  | .ENTITY_EVENT => "entity_event"
  | .PLAYER_EVENT => "event"
  | .FUNCTION => "func"
  | .IF_ENTITY => "if_entity"
  | .ENTITY_ACTION => "entity_action"
  | .IF_VARIABLE => "if_var"
  | .SELECT_OBJECT => "select_obj"
  | .GAME_ACTION => "game_action"
  | .ELSE => "else"
  | .PROCESS => "process"
  | .REPEAT => "repeat"
  | .IF_GAME => "if_game"

/-- Member list in source declaration order (enum iteration order). -/
def CodeBlockCategory.members : List CodeBlockCategory :=
  [.PLAYER_ACTION, .IF_PLAYER, .START_PROCESS, .CALL_FUNCTION, .CONTROL,
   .SET_VARIABLE, .ENTITY_EVENT, .PLAYER_EVENT, .FUNCTION, .IF_ENTITY,
   .ENTITY_ACTION, .IF_VARIABLE, .SELECT_OBJECT, .GAME_ACTION, .ELSE,
   .PROCESS, .REPEAT, .IF_GAME]

inductive Selection where
  | SELECTION | DEFAULT | KILLER | DAMAGER | VICTIM | SHOOTER | PROJECTILE
  | LAST_ENTITY | ALL_PLAYERS | ALL_ENTITIES | ALL_MOBS | AUTO
deriving DecidableEq, Repr

def Selection.value : Selection → String
  | .SELECTION => "Selection"
  | .DEFAULT => "Default"
  | .KILLER => "Killer"
  | .DAMAGER => "Damager"
  | .VICTIM => "Victim"
  | .SHOOTER => "Shooter"
  | .PROJECTILE => "Projectile"
  | .LAST_ENTITY => "LastEntity"
  | .ALL_PLAYERS => "AllPlayers"
  | .ALL_ENTITIES => "AllEntities"
  | .ALL_MOBS => "AllMobs"
  | .AUTO => ""

def Selection.members : List Selection :=
  [.SELECTION, .DEFAULT, .KILLER, .DAMAGER, .VICTIM, .SHOOTER, .PROJECTILE,
   .LAST_ENTITY, .ALL_PLAYERS, .ALL_ENTITIES, .ALL_MOBS, .AUTO]

inductive VariableScope where
  | GAME | SAVED | LOCAL | LINE
deriving DecidableEq, Repr

def VariableScope.value : VariableScope → String
  | .GAME => "unsaved"
  | .SAVED => "saved"
  | .LOCAL => "local"
  | .LINE => "line"

def VariableScope.members : List VariableScope := [.GAME, .SAVED, .LOCAL, .LINE]

inductive DataType where
  | STRING | TEXT | NUMBER | LOCATION | VECTOR | SOUND | PARTICLE | POTION
  | ITEM | ANY | VARIABLE | LIST | DICTIONARY
deriving DecidableEq, Repr

def DataType.value : DataType → String
  | .STRING => "txt"
  | .TEXT => "comp"
  | .NUMBER => "num"
  | .LOCATION => "loc"
  | .VECTOR => "vec"
  | .SOUND => "snd"
  | .PARTICLE => "part"
  | .POTION => "pot"
  | .ITEM => "item"
  | .ANY => "any"
  | .VARIABLE => "var"
  | .LIST => "list"
  | .DICTIONARY => "dict"

def DataType.members : List DataType :=
  [.STRING, .TEXT, .NUMBER, .LOCATION, .VECTOR, .SOUND, .PARTICLE, .POTION,
   .ITEM, .ANY, .VARIABLE, .LIST, .DICTIONARY]

inductive Mode where
  | SPAWN | PLAY | DEV | BUILD
deriving DecidableEq, Repr

def Mode.value : Mode → String
  | .SPAWN => "spawn"
  | .PLAY => "play"
  | .DEV => "dev"
  | .BUILD => "build"

inductive PlotSize where
  | BASIC | LARGE | MASSIVE | MEGA
deriving DecidableEq, Repr

def PlotSize.value : PlotSize → String
  | .BASIC => "basic"
  | .LARGE => "large"
  | .MASSIVE => "massive"
  | .MEGA => "mega"

def PlotSize.members : List PlotSize := [.BASIC, .LARGE, .MASSIVE, .MEGA]

/-- `get_from_value(enum, value)` from src/df/enums.py: first member whose
    `.value` equals the given value, else Python `None`.  A non-string value
    never compares equal to a member value string. -/
def getFromValueCategory (v : JVal) : Option CodeBlockCategory :=
  CodeBlockCategory.members.find? (fun m => jvalIsStr v m.value)

def getFromValueSelection (v : JVal) : Option Selection :=
  Selection.members.find? (fun m => jvalIsStr v m.value)

def getFromValueVarScope (v : JVal) : Option VariableScope :=
  VariableScope.members.find? (fun m => jvalIsStr v m.value)

def getFromValueDataType (v : JVal) : Option DataType :=
  DataType.members.find? (fun m => jvalIsStr v m.value)

/- ===== src/df/values.py ===== -/

/-- The value of a `Number` item: the constructor annotation is
    `str | float | int`. -/
inductive NumValue where
  | ofInt (n : Int)
  | ofStr (s : String)
deriving DecidableEq, Repr

def NumValue.toJVal : NumValue → JVal
  | .ofInt n => .int n
  | .ofStr s => .str s

/-- `ParticleData` (src/df/values.py lines 195-237). -/
structure ParticleData where
  color : Int
  color_variation : Int
  fade_color : Int
  size : Int
  size_variation : Int
  motion : Int × Int × Int
  motion_variation : Int
  material : String
  roll : Int
deriving DecidableEq, Repr

/-- `ParticleData.to_json`. -/
def ParticleData.to_json (d : ParticleData) : JVal :=
  .obj [("rgb", .int d.color),
        ("colorVariation", .int d.color_variation),
        ("rgb_fade", .int d.fade_color),
        ("size", .int d.size),
        ("sizeVariation", .int d.size_variation),
        ("x", .int d.motion.1),
        ("y", .int d.motion.2.1),
        ("z", .int d.motion.2.2),
        ("motionVariation", .int d.motion_variation),
        ("material", .str d.material.toUpper),
        ("roll", .int d.roll)]

/-- `ParticleData.from_json`: reads every field with `json[k]` (KeyError on a
    missing key), lower-cases the material. -/
def ParticleData.from_json (j : JVal) : Except PyErr ParticleData := do
  let rgb ← jget j "rgb"
  let cv ← jget j "colorVariation"
  let fade ← jget j "rgb_fade"
  let sz ← jget j "size"
  let sv ← jget j "sizeVariation"
  let x ← jget j "x"
  let y ← jget j "y"
  let z ← jget j "z"
  let mv ← jget j "motionVariation"
  let mat ← jget j "material"
  let roll ← jget j "roll"
  pure { color := jvalAsInt rgb, color_variation := jvalAsInt cv,
         fade_color := jvalAsInt fade, size := jvalAsInt sz,
         size_variation := jvalAsInt sv,
         motion := (jvalAsInt x, jvalAsInt y, jvalAsInt z),
         motion_variation := jvalAsInt mv,
         material := (jvalAsStr mat).toLower, roll := jvalAsInt roll }

/-- The `Item` class hierarchy of src/df/values.py as a tagged union.  Each
    case carries the constructor fields; `slot` defaults to `-1` in the
    source and is always the last field. -/
inductive Item where
  | string (value : String) (slot : Int)
  | text (value : String) (slot : Int)
  | number (value : NumValue) (slot : Int)
  | location (x y z pitch yaw : Int) (slot : Int)
  | vector (x y z : Int) (slot : Int)
  | sound (sound : String) (pitch volume : Int) (custom : Bool) (slot : Int)
  | particle (particle : String) (spread : Int × Int) (amount : Int)
      (data : ParticleData) (slot : Int)
  | potion (effect : String) (duration amplifier : Int) (slot : Int)
  | variable (name : String) (scope : VariableScope) (slot : Int)
  | gameValue (type : String) (selection : Selection) (slot : Int)
  | parameter (name : String) (type : DataType) (plural : Bool)
      (dflt : Option Item) (description : Option String)
      (note : Option String) (slot : Int)
  | blockTag (tag : String) (optionName : String) (slot : Int)
deriving Repr

/-- `self.id`, as set by each subclass constructor. -/
def Item.id : Item → String
  | .string .. => "txt"
  | .text .. => "comp"
  | .number .. => "num"
  | .location .. => "loc"
  | .vector .. => "vec"
  | .sound .. => "snd"
  | .particle .. => "part"
  | .potion .. => "pot"
  | .variable .. => "var"
  | .gameValue .. => "g_val"
  | .parameter .. => "pn_el"
  | .blockTag .. => "bl_tag"

/-- `self.slot` of an Item. -/
def Item.slotOf : Item → Int
  | .string _ s => s
  | .text _ s => s
  | .number _ s => s
  | .location _ _ _ _ _ s => s
  | .vector _ _ _ s => s
  | .sound _ _ _ _ s => s
  | .particle _ _ _ _ s => s
  | .potion _ _ _ s => s
  | .variable _ _ s => s
  | .gameValue _ _ s => s
  | .parameter _ _ _ _ _ _ s => s
  | .blockTag _ _ s => s

/-- `Item._getdata`, one branch per subclass of src/df/values.py.
    `Parameter._getdata` embeds the serialized default as
    `self.default.to_json(-1)["item"]`, i.e. an `id`/`data` object, inlined
    in the `parameter` branch (the recursion is structural through the
    `Option` default). -/
def Item.getdata : Item → JVal
  | .string v _ => .obj [("name", .str v)]
  | .text v _ => .obj [("name", .str v)]
  | .number v _ => .obj [("name", v.toJVal)]
  | .location x y z pitch yaw _ =>
    .obj [("isBlock", .bool false),
          ("loc", .obj [("x", .int x), ("y", .int y), ("z", .int z),
                        ("pitch", .int pitch), ("yaw", .int yaw)])]
  | .vector x y z _ => .obj [("x", .int x), ("y", .int y), ("z", .int z)]
  | .sound s pitch volume custom _ =>
    if custom then
      .obj [("pitch", .int pitch), ("vol", .int volume), ("key", .str s)]
    else
      .obj [("pitch", .int pitch), ("vol", .int volume), ("sound", .str s)]
  | .particle p spread amount d _ =>
    .obj [("particle", .str p),
          ("cluster", .obj [("amount", .int amount),
                            ("horizontal", .int spread.1),
                            ("vertical", .int spread.2)]),
          ("data", d.to_json)]
  | .potion effect duration amplifier _ =>
    .obj [("pot", .str effect),
          ("dur", .int (if duration = -1 then 1000000 else duration)),
          ("amp", .int (amplifier - 1))]
  | .variable name scope _ =>
    .obj [("name", .str name), ("scope", .str scope.value)]
  | .gameValue ty sel _ =>
    .obj [("type", .str ty), ("target", .str sel.value)]
  | .parameter name ty plural dflt descr note _ =>
    -- data = {name, type, plural, optional}; then conditional fields in order.
    let base : List (String × JVal) :=
      [("name", .str name), ("type", .str ty.value), ("plural", .bool plural),
       ("optional", .bool dflt.isNone)]
    let base :=
      match dflt with
      | some d =>
        setKey base "default_value"
          (.obj [("id", .str d.id), ("data", Item.getdata d)])
      | none => base
    let base :=
      -- `if self.description:` — Python truthiness, so "" is skipped too.
      match descr with
      | some s => if s ≠ "" then setKey base "description" (.str s) else base
      | none => base
    let base :=
      match note with
      | some s => if s ≠ "" then setKey base "note" (.str s) else base
      | none => base
    .obj base
  | .blockTag tag optionName _ =>
    .obj [("option", .str optionName), ("tag", .str tag)]
termination_by structural i => i

/-- `self.default.to_json(-1)["item"]`, the `item` sub-object the default of
    a Parameter is serialized to. -/
def Item.defaultItemJson (i : Item) : JVal :=
  .obj [("id", .str i.id), ("data", i.getdata)]

/-- `Item.to_json(index)` (src/df/values.py lines 15-26). -/
def Item.to_json (i : Item) (index : Int) : JVal :=
  .obj [("item", .obj [("id", .str i.id), ("data", i.getdata)]),
        ("slot", .int (if i.slotOf = -1 then index else i.slotOf))]

/- `Item.from_json` dispatches on the `item.id` tag to the per-kind
   `from_json` classmethods, inlined here as branches of `Item.fromDataF`.
   `Parameter.from_json` recursively calls
   `Item.from_json({"item": json["default_value"], "slot": -1})`; its checks
   are unfolded on that literal wrapper (the `slot` and `item` keys are
   present by construction and the slot value `-1` is an int, so only the
   `isinstance(json["item"], dict)` check and the `item.id` / `item.data`
   key checks remain).  The fuel parameter bounds that recursion the way
   CPython's recursion limit does; fuel is consumed only on the
   nested-Parameter path. -/
def Item.fromDataF : Nat → String → JVal → Int → Except PyErr Item
  | fuel, id, data, slot =>
    if id = "txt" then do
      -- String.from_json
      let n ← jget data "name"
      pure (.string (jvalAsStr n) slot)
    else if id = "comp" then do
      -- Text.from_json
      let n ← jget data "name"
      pure (.text (jvalAsStr n) slot)
    else if id = "num" then do
      -- Number.from_json
      let n ← jget data "name"
      match n with
      | .str s => pure (.number (.ofStr s) slot)
      | v => pure (.number (.ofInt (jvalAsInt v)) slot)
    else if id = "var" then do
      -- Variable.from_json; an unknown scope makes get_from_value yield
      -- Python None, stored as-is — coerced here, never observed by a theorem.
      let n ← jget data "name"
      let sc ← jget data "scope"
      pure (.variable (jvalAsStr n) ((getFromValueVarScope sc).getD .GAME) slot)
    else if id = "g_val" then do
      -- GameValue.from_json
      let ty ← jget data "type"
      let tg ← jget data "target"
      pure (.gameValue (jvalAsStr ty)
        ((getFromValueSelection tg).getD .AUTO) slot)
    else if id = "loc" then do
      -- Location.from_json reads json["loc"]["x"] … in argument order.
      let loc ← jget data "loc"
      let x ← jget loc "x"
      let y ← jget loc "y"
      let z ← jget loc "z"
      let pitch ← jget loc "pitch"
      let yaw ← jget loc "yaw"
      pure (.location (jvalAsInt x) (jvalAsInt y) (jvalAsInt z)
        (jvalAsInt pitch) (jvalAsInt yaw) slot)
    else if id = "vec" then do
      -- Vector.from_json
      let x ← jget data "x"
      let y ← jget data "y"
      let z ← jget data "z"
      pure (.vector (jvalAsInt x) (jvalAsInt y) (jvalAsInt z) slot)
    else if id = "snd" then
      -- Sound.from_json: both branches read json["volume"], although
      -- Sound._getdata emits the key "vol".
      match data with
      | .obj _ =>
        if (jget data "key").toOption.isSome then do
          let s ← jget data "key"
          let pitch ← jget data "pitch"
          let volume ← jget data "volume"
          pure (.sound (jvalAsStr s) (jvalAsInt pitch) (jvalAsInt volume)
            true slot)
        else do
          let s ← jget data "sound"
          let pitch ← jget data "pitch"
          let volume ← jget data "volume"
          pure (.sound (jvalAsStr s) (jvalAsInt pitch) (jvalAsInt volume)
            false slot)
      | _ => .error .typeError
    else if id = "part" then do
      -- Particle.from_json; float(...) is the identity in our integer model.
      let p ← jget data "particle"
      let cluster ← jget data "cluster"
      let h ← jget cluster "horizontal"
      let v ← jget cluster "vertical"
      let amount ← jget cluster "amount"
      let dj ← jget data "data"
      let d ← ParticleData.from_json dj
      pure (.particle (jvalAsStr p) (jvalAsInt h, jvalAsInt v)
        (jvalAsInt amount) d slot)
    else if id = "pot" then do
      -- Potion.from_json
      let pot ← jget data "pot"
      let dur ← jget data "dur"
      let amp ← jget data "amp"
      pure (.potion (jvalAsStr pot)
        (if jvalAsInt dur = 1000000 then -1 else jvalAsInt dur)
        (jvalAsInt amp + 1) slot)
    else if id = "pn_el" then
      -- Parameter.from_json, arguments evaluated left to right:
      -- name, type, plural, the default expression, then .get fields.
      match fuel with
      | 0 => .error .recursionError
      | fuel + 1 => do
        let n ← jget data "name"
        let ty ← jget data "type"
        let plural ← jget data "plural"
        let opt ← jget data "optional"
        -- `None if not json["optional"] else Item.from_json({"item":
        --  json["default_value"], "slot": -1})` — the condition is inverted
        -- with respect to _getdata, faithfully reproduced here.
        let dflt ←
          if !(jvalTruthy opt) then
            pure Option.none
          else do
            let dv ← jget data "default_value"
            let it ←
              match dv with
              | .obj ikvs =>
                match findKey ikvs "id" with
                | none => .error (.malformedItem "No \x27item.id\x27 key present.")
                | some idv =>
                  match findKey ikvs "data" with
                  | none =>
                    .error (.malformedItem "No \x27item.data\x27 key present.")
                  | some datav =>
                    match idv with
                    | .str id2 => Item.fromDataF fuel id2 datav (-1)
                    | _ =>
                      .error
                        (.malformedItem "Unexpected value for \x27item.id\x27.")
              | _ => .error (.malformedItem "Unexpected value for \x27item\x27.")
            pure (some it)
        let descr :=
          findKey (match data with | .obj kvs => kvs | _ => []) "description"
        let note := findKey (match data with | .obj kvs => kvs | _ => []) "note"
        pure (.parameter (jvalAsStr n)
          ((getFromValueDataType ty).getD .ANY) (jvalAsBool plural) dflt
          (descr.map jvalAsStr) (note.map jvalAsStr) slot)
    else if id = "bl_tag" then do
      -- BlockTag.from_json
      let tag ← jget data "tag"
      let opt ← jget data "option"
      pure (.blockTag (jvalAsStr tag) (jvalAsStr opt) slot)
    else
      -- `raise MalformedItemJSONError("Unexpected value for \x27item.id\x27.")`
      .error (.malformedItem "Unexpected value for \x27item.id\x27.")
termination_by structural fuel => fuel

/-- Python recursion-limit stand-in: fuel for the nested-Parameter recursion
    (CPython's default recursion limit is 1000). -/
def pyRecursionLimit : Nat := 1000

/-- `Item.from_json` (src/df/values.py lines 28-66): wrapper validation in
    source order, then dispatch on `item.id`. -/
def Item.from_json (j : JVal) : Except PyErr Item :=
  match j with
  | .obj kvs =>
    if (findKey kvs "slot").isNone then
      .error (.malformedItem "No \x27slot\x27 key present.")
    else if (findKey kvs "item").isNone then
      .error (.malformedItem "No \x27item\x27 key present.")
    else
      match findKey kvs "slot", findKey kvs "item" with
      | some slotv, some itemv =>
        if !jvalIsInt slotv then
          .error (.malformedItem "Unexpected value for \x27slot\x27.")
        else if !jvalIsObj itemv then
          .error (.malformedItem "Unexpected value for \x27item\x27.")
        else
          match itemv with
          | .obj ikvs =>
            if (findKey ikvs "id").isNone then
              .error (.malformedItem "No \x27item.id\x27 key present.")
            else if (findKey ikvs "data").isNone then
              .error (.malformedItem "No \x27item.data\x27 key present.")
            else
              match findKey ikvs "id", findKey ikvs "data" with
              | some idv, some datav =>
                match idv with
                | .str id => Item.fromDataF pyRecursionLimit id datav
                    (jvalAsInt slotv)
                | _ =>
                  .error (.malformedItem "Unexpected value for \x27item.id\x27.")
              | _, _ => .error (.malformedItem "unreachable")
          | _ => .error (.malformedItem "unreachable")
      | _, _ => .error (.malformedItem "unreachable")
  | _ =>
    -- `"slot" not in json` on a non-dict raises TypeError (unreachable from
    -- the block codec, which iterates JSON arrays of objects).
    .error .typeError

/- ===== src/df/code.py ===== -/

/-- A raw argument of a `CodeBlock` before `__parse_values` runs: the source
    accepts bare ints/floats and bare strings alongside Items. -/
inductive PyArg where
  | rawNum (n : Int)
  | rawStr (s : String)
  | item (i : Item)
deriving Repr

/-- One step of `CodeBlock.__parse_values`: bare ints/floats become `Number`,
    bare strings become `String` (both with the default slot -1), Items are
    left alone. -/
def PyArg.parseValue : PyArg → Item
  | .rawNum n => .number (.ofInt n) (-1)
  | .rawStr s => .string s (-1)
  | .item i => i

/-- `CodeBlock.__parse_values` replaces raw entries of `self.args` in place. -/
def parseValues (args : List PyArg) : List PyArg :=
  args.map (fun a => PyArg.item a.parseValue)

/-- `CodeBlock` (src/df/code.py lines 65-163); `kwargs` is `extras`. -/
structure CodeBlock where
  category : CodeBlockCategory
  action : String
  selection : Selection
  args : List PyArg
  extras : List (String × JVal)

/-- Source class `Bracket` (the name collides with a Mathlib class); its
    attributes are named `open` and `repeat`, both reserved words in Lean. -/
structure DFBracket where
  isOpen : Bool
  isRepeat : Bool
deriving DecidableEq, Repr

inductive Block where
  | codeblock (cb : CodeBlock)
  | bracket (br : DFBracket)

def Item.isBlockTag : Item → Bool
  | .blockTag .. => true
  | _ => false

/-- The two assignments `convert["item"]["data"]["action"] = ...` and
    `convert["item"]["data"]["block"] = ...` performed on a serialized
    BlockTag fragment inside `CodeBlock.to_json`. -/
def stampTag (convert : JVal) (action : String) (blockValue : String) : JVal :=
  match convert with
  | .obj kvs =>
    match findKey kvs "item" with
    | some (.obj ikvs) =>
      match findKey ikvs "data" with
      | some (.obj dkvs) =>
        let dkvs := setKey dkvs "action" (.str action)
        let dkvs := setKey dkvs "block" (.str blockValue)
        .obj (setKey kvs "item" (.obj (setKey ikvs "data" (.obj dkvs))))
      | _ => convert
    | _ => convert
  | _ => convert

/-- The serialization loop of `CodeBlock.to_json`: `index` is the enumerate
    position, `tags` counts the BlockTags already emitted.  A BlockTag is
    re-serialized at index `26 - tags` and stamped with the owning block's
    action (or "dynamic" when the action is empty) and category value.  The
    source computes `item.to_json(index)` once before the isinstance test and
    discards it in the BlockTag case; that dead computation is pure and
    omitted here. -/
def argsToJson (action : String) (blockValue : String) :
    List Item → Nat → Nat → List JVal
  | [], _, _ => []
  | i :: rest, index, tags =>
    if i.isBlockTag then
      stampTag (i.to_json (26 - (tags : Int)))
          (if action ≠ "" then action else "dynamic") blockValue
        :: argsToJson action blockValue rest (index + 1) (tags + 1)
    else
      i.to_json (index : Int) :: argsToJson action blockValue rest (index + 1) tags

/-- `CodeBlock.to_json` (src/df/code.py lines 100-132).  The Python method
    first mutates `self.args` through `__parse_values`; the mutation is made
    explicit by returning the updated block alongside the JSON value. -/
def CodeBlock.to_json (b : CodeBlock) : JVal × CodeBlock :=
  let parsedArgs := (parseValues b.args).map PyArg.parseValue
  let args_list := argsToJson b.action b.category.value parsedArgs 0 0
  let data : List (String × JVal) :=
    [("id", .str "block"),
     ("block", .str b.category.value),
     ("action", .str b.action),
     ("args", .obj [("items", .arr args_list)])]
  let data := if b.selection ≠ .AUTO
    then setKey data "target" (.str b.selection.value) else data
  let data := b.extras.foldl (fun d kv => setKey d kv.1 kv.2) data
  (.obj data, { b with args := parseValues b.args })

/-- `Bracket.to_json`. -/
def DFBracket.to_json (br : DFBracket) : JVal :=
  .obj [("id", .str "bracket"),
        ("direct", .str (if br.isOpen then "open" else "close")),
        ("type", .str (if br.isRepeat then "repeat" else "norm"))]

/-- `Block.to_json` dispatch (with the `CodeBlock` state effect threaded). -/
def Block.to_json : Block → JVal × Block
  | .codeblock cb => let (j, cb') := cb.to_json; (j, .codeblock cb')
  | .bracket br => (br.to_json, .bracket br)

/-- `Bracket.from_json` (src/df/code.py lines 43-60). -/
def DFBracket.from_json (kvs : List (String × JVal)) : Except PyErr DFBracket :=
  match findKey kvs "direct" with
  | none => .error (.malformedCodeBlock "No \x27direct\x27 key present.")
  | some dv =>
    match findKey kvs "type" with
    | none => .error (.malformedCodeBlock "No \x27type\x27 key present.")
    | some tv =>
      if !(jvalIsStr dv "open" || jvalIsStr dv "close") then
        .error (.malformedCodeBlock "Unexpected value for \x27direct\x27.")
      else if !(jvalIsStr tv "norm" || jvalIsStr tv "repeat") then
        .error (.malformedCodeBlock "Unexpected value for \x27type\x27.")
      else
        .ok ⟨jvalIsStr dv "open", jvalIsStr tv "repeat"⟩

/-- The loop `for k, v in json:` at src/df/code.py lines 156-158.  Iterating a
    Python dict yields its keys, and each key (a string) is unpacked as a
    2-tuple: a key of any other length raises
    `ValueError: too many/not enough values to unpack`.  For 2-character keys
    the two characters land in `k` and `v`, and `code.extras[k] = v` runs
    unless `k` names one of the four consumed keys. -/
def extrasLoop : List String → List (String × JVal) →
    Except PyErr (List (String × JVal))
  | [], acc => .ok acc
  | key :: rest, acc =>
    match key.data with
    | [a, b] =>
      -- `if k not in ("block", "action", "target", "args")` — a one-character
      -- string never matches, but the check is kept faithfully.
      if a.toString ∈ (["block", "action", "target", "args"] : List String) then
        extrasLoop rest acc
      else
        extrasLoop rest (setKey acc a.toString (.str b.toString))
    | _ => .error .valueError

/-- The argument list read by `CodeBlock.from_json`:
    `json.get("args", {"items": []})["items"]`, then `ItemValue.from_json`
    (the `Item.from_json` classmethod) on each element in order, stopping at
    the first exception. -/
def parseArgsJson (kvs : List (String × JVal)) : Except PyErr (List Item) := do
  let argsv := (findKey kvs "args").getD (.obj [("items", .arr [])])
  let items ← jget argsv "items"
  match items with
  | .arr xs => xs.mapM Item.from_json
  | _ => .error .typeError  -- iterating a non-list (unreachable below)

/-- `CodeBlock.from_json` (src/df/code.py lines 134-160).  Notes on the
    source, reproduced faithfully:
    * the tuple tested for the `data` requirement is
      `("func", "start_process", "process", "func")` — `"func"` appears
      twice and `"call_func"` is absent, although the class docstring lists
      Call Function among the categories whose name lives in `data`;
    * `get_from_value` can return Python `None` for an unknown category or
      target; the constructed block is never returned (see below), so the
      `None` is coerced to a default here and is unobservable;
    * the final `for k, v in json:` loop iterates the dict's keys and
      unpacks each, so it raises ValueError at the latest on the required
      5-character key `"block"` — `from_json` therefore never returns a
      block. -/
def CodeBlock.from_json (kvs : List (String × JVal)) : Except PyErr CodeBlock := do
  match findKey kvs "block" with
  | none => .error (.malformedCodeBlock "No \x27block\x27 key present.")
  | some bv =>
    if jvalIsStr bv "func" || jvalIsStr bv "start_process" ||
        jvalIsStr bv "process" || jvalIsStr bv "func" then
      if (findKey kvs "data").isNone then
        .error (.malformedCodeBlock "No \x27data\x27 key present.")
      else pure ()
    else
      if !(jvalIsStr bv "else") && (findKey kvs "action").isNone then
        .error (.malformedCodeBlock "No \x27action\x27 key present.")
      else pure ()
    let block := (getFromValueCategory bv).getD .PLAYER_ACTION
    let action := jvalAsStr ((findKey kvs "action").getD (.str ""))
    let target :=
      (getFromValueSelection ((findKey kvs "target").getD (.str ""))).getD .AUTO
    let args ← parseArgsJson kvs
    let extras ← extrasLoop (kvs.map Prod.fst) []
    pure { category := block, action := action, selection := target,
           args := args.map PyArg.item, extras := extras }

/-- `Block.from_json` dispatch (src/df/code.py lines 12-22). -/
def Block.from_json (j : JVal) : Except PyErr Block :=
  match j with
  | .obj kvs =>
    match findKey kvs "id" with
    | some v =>
      if jvalIsStr v "block" then (CodeBlock.from_json kvs).map .codeblock
      else if jvalIsStr v "bracket" then (DFBracket.from_json kvs).map .bracket
      else .error (.malformedCodeBlock "Unexpected value for \x27id\x27.")
    | none => .error (.malformedCodeBlock "No \x27id\x27 key present.")
  | _ =>
    -- `json.get("id")` on a non-dict raises; unreachable from
    -- Template.from_json, which checks isinstance(block, dict) first.
    .error .typeError

/- ===== src/df/template.py ===== -/

/-- `Template`: an ordered block list plus an optional display name. -/
structure Template where
  codeblocks : List Block
  name : Option String

/-- `Template.to_json` serializes the blocks in order; each
    `block.to_json()` call can mutate the block (`__parse_values`), so the
    updated template is returned alongside the document. -/
def Template.to_json (t : Template) : JVal × Template :=
  let pairs := t.codeblocks.map Block.to_json
  (.obj [("blocks", .arr (pairs.map Prod.fst))],
   { t with codeblocks := pairs.map Prod.snd })

/-- `Template.from_json` (src/df/template.py lines 66-83): requires a
    `blocks` key, insists every element is a dict, decodes in order, and
    constructs `cls(blocks)` — dropping any template name. -/
def Template.from_json (j : JVal) : Except PyErr Template :=
  match j with
  | .obj kvs =>
    match findKey kvs "blocks" with
    | none => .error (.malformedTemplate "No \x27blocks\x27 key present.")
    | some (.arr bs) =>
      (bs.mapM (fun b =>
        (match b with
         | .obj _ => Block.from_json b
         | _ =>
           .error (.malformedCodeBlock "CodeBlock is not a dict.") :
           Except PyErr Block))).map
        (fun blocks => { codeblocks := blocks, name := none })
    | some _ => .error .typeError  -- iterating a non-list
  | _ => .error .typeError

/- ===== Compression envelope (Template.compress / Template.decompress).
   `json.dumps` / UTF-8 / base64 are Python standard-library functions
   implemented here; `gzip.compress` / `gzip.decompress` are opaque
   byte-level codecs taken as function parameters (theorems that need them
   hypothesize only what the gzip format guarantees). ===== -/

/-- Hex digit (lowercase), for `\uXXXX` escapes. -/
def hexDigit (n : Nat) : Char :=
  "0123456789abcdef".toList.getD (n % 16) '0'

/-- One character of `json.dumps` output with the default `ensure_ascii`:
    quote and backslash are escaped, common control characters use their
    short escapes, every other character outside printable ASCII becomes a
    `\uXXXX` escape (code points above the BMP would use surrogate pairs;
    none occur in this development). -/
def jsonEscapeChar (c : Char) : List Char :=
  if c = '"' then ['\\', '"']
  else if c = '\\' then ['\\', '\\']
  else if c = '\n' then ['\\', 'n']
  else if c = '\t' then ['\\', 't']
  else if c = '\r' then ['\\', 'r']
  else if c.toNat = 8 then ['\\', 'b']
  else if c.toNat = 12 then ['\\', 'f']
  else if c.toNat < 32 || c.toNat > 126 then
    ['\\', 'u', hexDigit (c.toNat / 4096), hexDigit (c.toNat / 256),
     hexDigit (c.toNat / 16), hexDigit c.toNat]
  else [c]

def jsonQuote (s : String) : String :=
  ⟨'"' :: (s.data.map jsonEscapeChar).flatten ++ ['"']⟩

/- `json.dumps` with the default separators `", "` and `": "`; the list
   helpers render the comma-separated element sequences. -/
mutual

def dumps : JVal → String
  | .null => "null"
  | .bool b => if b then "true" else "false"
  | .int n => toString n
  | .str s => jsonQuote s
  | .arr xs => "[" ++ dumpsList xs ++ "]"
  | .obj kvs => "\x7b" ++ dumpsObj kvs ++ "\x7d"

def dumpsList : List JVal → String
  | [] => ""
  | [x] => dumps x
  | x :: y :: rest => dumps x ++ ", " ++ dumpsList (y :: rest)

def dumpsObj : List (String × JVal) → String
  | [] => ""
  | [(k, v)] => jsonQuote k ++ ": " ++ dumps v
  | (k, v) :: kv :: rest =>
    jsonQuote k ++ ": " ++ dumps v ++ ", " ++ dumpsObj (kv :: rest)

end

/-- UTF-8 encoding of one character (1-4 bytes). -/
def utf8Char (c : Char) : List Nat :=
  let n := c.toNat
  if n < 128 then [n]
  else if n < 2048 then [192 + n / 64, 128 + n % 64]
  else if n < 65536 then [224 + n / 4096, 128 + n / 64 % 64, 128 + n % 64]
  else [240 + n / 262144, 128 + n / 4096 % 64, 128 + n / 64 % 64, 128 + n % 64]

/-- `str.encode()`: UTF-8 bytes of a string. -/
def utf8Bytes (s : String) : List Nat :=
  (s.data.map utf8Char).flatten

/-- The base64 alphabet. -/
def b64char (n : Nat) : Char :=
  "ABCDEFGHIJKLMNOPQRSTUVWXYZabcdefghijklmnopqrstuvwxyz0123456789+/".toList.getD
    (n % 64) 'A'

/-- `base64.b64encode` on a byte list: 3-byte groups to 4 characters with
    `=` padding. -/
def b64encodeAux : List Nat → List Char
  | [] => []
  | [a] =>
    let x := (a % 256) * 65536
    [b64char (x / 262144), b64char (x / 4096 % 64), '=', '=']
  | [a, b] =>
    let x := (a % 256) * 65536 + (b % 256) * 256
    [b64char (x / 262144), b64char (x / 4096 % 64), b64char (x / 64 % 64), '=']
  | a :: b :: c :: rest =>
    let x := (a % 256) * 65536 + (b % 256) * 256 + c % 256
    b64char (x / 262144) :: b64char (x / 4096 % 64) :: b64char (x / 64 % 64)
      :: b64char (x % 64) :: b64encodeAux rest

def b64encode (bytes : List Nat) : String := ⟨b64encodeAux bytes⟩

/-- The compressed envelope
    `base64.b64encode(gzip.compress(json.dumps(self.to_json()).encode())).decode()`
    computed by `Template.compress`, with `gzip.compress` passed in. -/
def Template.envelope (gzipCompress : List Nat → List Nat) (t : Template) :
    String :=
  b64encode (gzipCompress (utf8Bytes (dumps t.to_json.1)))

/-- `Template.compress` (src/df/template.py lines 54-64): build the envelope,
    then `raise OverflowError` when its length exceeds 65535. -/
def Template.compress (gzipCompress : List Nat → List Nat) (t : Template) :
    Except PyErr String :=
  let compressed := t.envelope gzipCompress
  if compressed.length > 65535 then .error .overflowError
  else .ok compressed

/-- `Template.decompress` (src/df/template.py lines 85-96), parametrized by
    `gzip.decompress`-composed-with-`base64.b64decode` and by `json.loads`
    (standard-library codecs): decode, parse, then `Template.from_json`. -/
def Template.decompress (unzipDecode : String → List Nat)
    (loads : List Nat → Except PyErr JVal) (data : String) :
    Except PyErr Template := do
  let doc ← loads (unzipDecode data)
  Template.from_json doc

/- ===== src/df/codeclient.py ===== -/

/-- `CCAuthScopes`, a `Flag` bitset with six members. -/
structure CCAuthScopes where
  hasDefault : Bool
  hasInventory : Bool
  hasMovement : Bool
  hasReadPlot : Bool
  hasWriteCode : Bool
  hasClearPlot : Bool
deriving DecidableEq, Repr

namespace CCAuthScopes

def DEFAULT : CCAuthScopes := ⟨true, false, false, false, false, false⟩
def INVENTORY : CCAuthScopes := ⟨false, true, false, false, false, false⟩
def MOVEMENT : CCAuthScopes := ⟨false, false, true, false, false, false⟩
def READ_PLOT : CCAuthScopes := ⟨false, false, false, true, false, false⟩
def WRITE_CODE : CCAuthScopes := ⟨false, false, false, false, true, false⟩
def CLEAR_PLOT : CCAuthScopes := ⟨false, false, false, false, false, true⟩

/-- Python `Flag.__contains__`: `a in b` iff every bit of `a` is set in `b`. -/
def flagIn (a b : CCAuthScopes) : Bool :=
  (!a.hasDefault || b.hasDefault) && (!a.hasInventory || b.hasInventory) &&
  (!a.hasMovement || b.hasMovement) && (!a.hasReadPlot || b.hasReadPlot) &&
  (!a.hasWriteCode || b.hasWriteCode) && (!a.hasClearPlot || b.hasClearPlot)

/-- Python `Flag.__or__`. -/
def flagOr (a b : CCAuthScopes) : CCAuthScopes :=
  ⟨a.hasDefault || b.hasDefault, a.hasInventory || b.hasInventory,
   a.hasMovement || b.hasMovement, a.hasReadPlot || b.hasReadPlot,
   a.hasWriteCode || b.hasWriteCode, a.hasClearPlot || b.hasClearPlot⟩

/-- `Flag.name` for the single-member scopes used by the gated methods. -/
def flagName (a : CCAuthScopes) : String :=
  if a = DEFAULT then "DEFAULT"
  else if a = INVENTORY then "INVENTORY"
  else if a = MOVEMENT then "MOVEMENT"
  else if a = READ_PLOT then "READ_PLOT"
  else if a = WRITE_CODE then "WRITE_CODE"
  else if a = CLEAR_PLOT then "CLEAR_PLOT"
  else ""

end CCAuthScopes

/-- The mutable session state of a `CodeClient`: the authorized scope set
    `_scopes` and the placement builder's `compact` flag. -/
structure CCState where
  scopes : CCAuthScopes
  placeCompact : Bool
deriving DecidableEq, Repr

/-- `CodeClient.__init__`: `self._scopes = CCAuthScopes.DEFAULT`, and the
    `__place` builder starts with `compact = False`. -/
def CCState.init : CCState := ⟨CCAuthScopes.DEFAULT, false⟩

/-- `__method._require_scope` (src/df/codeclient.py lines 82-86): a method
    whose own scope contains DEFAULT is never gated; otherwise membership of
    the method scope in the session scope set is required. -/
def requireScope (methodScope sessionScopes : CCAuthScopes) :
    Except PyErr Unit :=
  if CCAuthScopes.flagIn .DEFAULT methodScope then .ok ()
  else if !(CCAuthScopes.flagIn methodScope sessionScopes) then
    .error (.ccOutOfScope
      ("The action require scope " ++ methodScope.flagName ++ "."))
  else .ok ()

/-- Results the gated commands can produce. -/
inductive CCOut where
  | unit
  | mode (m : Option Mode)
  | size (p : PlotSize)
  | templates (ts : List Template)
  | rawItems (items : List String)

/-- Outcome of one modeled call: the Python return value or exception, the
    text commands written to the socket in order, and the state after. -/
structure CCStep where
  result : Except PyErr CCOut
  sends : List String
  state : CCState

/-- Standard-library / third-party codecs used by some commands, passed as
    parameters: `gzip` for `Template.compress`, `unzipDecode`/`loads` for
    `Template.decompress` (the `scan` path), `fromSnbt` for amulet-nbt
    parsing on the `inv` path. -/
structure ExternalFns where
  gzipCompress : List Nat → List Nat
  unzipDecode : String → List Nat
  loads : List Nat → Except PyErr JVal
  fromSnbt : String → Except PyErr (List String)

/-- The scope-gated commands of `CodeClient` (the claim C3 list): inventory
    get/set, spawn, mode get/set, plot scan/size, the place family, and
    clear. -/
inductive GatedCmd where
  | invGet
  | invSet (items : List String)
  | spawn
  | modeGet
  | modeSet (m : Mode)
  | plotScan
  | plotSize
  | placeCall (compact : Bool)
  | placeSetCompact
  | placeSetSwap
  | placePlace (t : Template)
  | placeExecute
  | clearPlot

/-- The `scope` class attribute of the nested command class each gated
    command lives in. -/
def GatedCmd.scope : GatedCmd → CCAuthScopes
  | .invGet | .invSet _ => .INVENTORY
  | .spawn | .modeGet | .modeSet _ => .MOVEMENT
  | .plotScan | .plotSize => .READ_PLOT
  | .placeCall _ | .placeSetCompact | .placeSetSwap
  | .placePlace _ | .placeExecute => .WRITE_CODE
  | .clearPlot => .CLEAR_PLOT

/-- `Mode.get`pattern match: an unknown mode string falls through the
    `match` and the method returns Python `None`. -/
def parseMode (s : String) : Option Mode :=
  if s = "spawn" then some .SPAWN
  else if s = "play" then some .PLAY
  else if s = "dev" then some .DEV
  else if s = "build" then some .BUILD
  else none

/-- `PlotSize(size)`: enum construction by value, ValueError when unknown. -/
def parsePlotSize (s : String) : Except PyErr PlotSize :=
  match PlotSize.members.find? (fun p => p.value = s) with
  | some p => .ok p
  | none => .error .valueError

/-- One gated command of `CodeClient`, modeled end to end: `_require_scope`
    first (raising `CCOutOfScopeError` with no send), then the sends and
    response handling of the corresponding method body.  `recv = none` is a
    timed-out receive: `TimeoutError` is swallowed by the give/setinv
    handlers and propagates everywhere else. -/
def runGated (ext : ExternalFns) (cmd : GatedCmd) (st : CCState)
    (recv : Option String) : CCStep :=
  match requireScope cmd.scope st.scopes with
  | .error e => ⟨.error e, [], st⟩
  | .ok _ =>
    match cmd with
    | .invGet =>
      -- send "inv"; items = _recv(); from_snbt(items)
      match recv with
      | none => ⟨.error .timeoutError, ["inv"], st⟩
      | some s =>
        match ext.fromSnbt s with
        | .ok items => ⟨.ok (.rawItems items), ["inv"], st⟩
        | .error e => ⟨.error e, ["inv"], st⟩
    | .invSet items =>
      -- send "setinv [...]"; timeout is success-by-silence; the literal
      -- "not creative mode" raises SendToMinecraftError.
      let send := "setinv [" ++ ",".intercalate items ++ "]"
      match recv with
      | none => ⟨.ok .unit, [send], st⟩
      | some m =>
        if m = "not creative mode" then
          ⟨.error (.sendToMinecraft "The player is not in creative mode."),
           [send], st⟩
        else ⟨.ok .unit, [send], st⟩
    | .spawn => ⟨.ok .unit, ["spawn"], st⟩
    | .modeGet =>
      match recv with
      | none => ⟨.error .timeoutError, ["mode"], st⟩
      | some s => ⟨.ok (.mode (parseMode s)), ["mode"], st⟩
    | .modeSet m => ⟨.ok .unit, ["mode " ++ m.value], st⟩
    | .plotScan =>
      -- send "scan"; one response of newline-delimited envelopes, each
      -- decompressed in order (first failure propagates).
      match recv with
      | none => ⟨.error .timeoutError, ["scan"], st⟩
      | some s =>
        match (s.splitOn "\n").mapM
            (Template.decompress ext.unzipDecode ext.loads) with
        | .ok ts => ⟨.ok (.templates ts), ["scan"], st⟩
        | .error e => ⟨.error e, ["scan"], st⟩
    | .plotSize =>
      match recv with
      | none => ⟨.error .timeoutError, ["size"], st⟩
      | some s =>
        match parsePlotSize s with
        | .ok p => ⟨.ok (.size p), ["size"], st⟩
        | .error e => ⟨.error e, ["size"], st⟩
    | .placeCall compact =>
      -- `__place.__call__` only stores the flag; no send.
      ⟨.ok .unit, [], { st with placeCompact := compact }⟩
    | .placeSetCompact =>
      ⟨.ok .unit, ["place compact"], { st with placeCompact := true }⟩
    | .placeSetSwap =>
      ⟨.ok .unit, ["place swap"], { st with placeCompact := false }⟩
    | .placePlace t =>
      -- `self._api.socket.send("place " + template.compress())`: the
      -- argument is evaluated first, so a compress failure sends nothing.
      match Template.compress ext.gzipCompress t with
      | .error e => ⟨.error e, [], st⟩
      | .ok env => ⟨.ok .unit, ["place " ++ env], st⟩
    | .placeExecute => ⟨.ok .unit, ["place go"], st⟩
    | .clearPlot => ⟨.ok .unit, ["clear"], st⟩

/-- `__give.__call__` (src/df/codeclient.py lines 88-108): ungated (DEFAULT
    scope); sends, then treats a timeout as success and the literal
    "not creative mode" as `SendToMinecraftError`. -/
def ccGive (st : CCState) (item : String) (recv : Option String) : CCStep :=
  match recv with
  | none => ⟨.ok .unit, ["give " ++ item], st⟩
  | some m =>
    if m = "not creative mode" then
      ⟨.error (.sendToMinecraft "The player is not in creative mode."),
       ["give " ++ item], st⟩
    else ⟨.ok .unit, ["give " ++ item], st⟩

/-- `message.split()`: split on whitespace.  CPython also drops empty
    fields; this version keeps them, which cannot change the membership
    tests `"inventory" in scopes` etc. below (the names are non-empty). -/
def pySplitAux : List Char → List Char → List String
  | [], acc => [⟨acc.reverse⟩]
  | c :: rest, acc =>
    if c.isWhitespace then ⟨acc.reverse⟩ :: pySplitAux rest []
    else pySplitAux rest (c :: acc)

def pySplit (m : String) : List String := pySplitAux m.data []

/-- `__scopes.__call__` (lines 144-165): send "scopes", parse the
    whitespace-separated name list, rebuild the scope set starting from
    DEFAULT, store and return it.  A timed-out `_recv` propagates
    `TimeoutError` and leaves the state unchanged. -/
def scopesCall (st : CCState) (recv : Option String) : CCStep :=
  match recv with
  | none => ⟨.error .timeoutError, ["scopes"], st⟩
  | some m =>
    let names := pySplit m
    let ns := CCAuthScopes.DEFAULT
    let ns := if names.contains "inventory"
      then ns.flagOr .INVENTORY else ns
    let ns := if names.contains "movement" then ns.flagOr .MOVEMENT else ns
    let ns := if names.contains "read_plot" then ns.flagOr .READ_PLOT else ns
    let ns := if names.contains "write_code" then ns.flagOr .WRITE_CODE else ns
    let ns := if names.contains "clear_plot" then ns.flagOr .CLEAR_PLOT else ns
    ⟨.ok .unit, ["scopes"], { st with scopes := ns }⟩

/-- The scope-name list built by `__scopes.request` (DEFAULT has no name and
    is never sent). -/
def scopeNameList (req : CCAuthScopes) : List String :=
  (if CCAuthScopes.flagIn .INVENTORY req then ["inventory"] else []) ++
  (if CCAuthScopes.flagIn .MOVEMENT req then ["movement"] else []) ++
  (if CCAuthScopes.flagIn .READ_PLOT req then ["read_plot"] else []) ++
  (if CCAuthScopes.flagIn .WRITE_CODE req then ["write_code"] else []) ++
  (if CCAuthScopes.flagIn .CLEAR_PLOT req then ["clear_plot"] else [])

/-- Whether the character list `pre` leads the character list `l`. -/
def charsLeadWith : List Char → List Char → Bool
  | [], _ => true
  | _ :: _, [] => false
  | a :: pre, b :: l => a = b && charsLeadWith pre l

/-- Substring containment on character lists. -/
def charsContain (needle : List Char) : List Char → Bool
  | [] => charsLeadWith needle []
  | b :: l => charsLeadWith needle (b :: l) || charsContain needle l

/-- `"auth" in message` (Python substring containment). -/
def containsAuth (m : String) : Bool :=
  charsContain "auth".data m.data

/-- `__scopes.request` (lines 167-187): send the name list, then
    `if "auth" in recv(...): self._scopes = requested_scopes`.  The receive
    is not wrapped in try/except, so a timeout propagates (the docstring
    documents `:raises TimeoutError:`); any other response is ignored. -/
def scopesRequest (st : CCState) (req : CCAuthScopes)
    (recv : Option String) : CCStep :=
  let send := "scopes " ++ " ".intercalate (scopeNameList req)
  match recv with
  | none => ⟨.error .timeoutError, [send], st⟩
  | some m =>
    if containsAuth m then ⟨.ok .unit, [send], { st with scopes := req }⟩
    else ⟨.ok .unit, [send], st⟩

/-- `__token.authenticate` (lines 125-136): send the token; "invalid token"
    raises `CCInvalidToken`; a response equal to "auth" triggers a nested
    `scopes()` refresh (whose send, result and state change are threaded
    through); any other response does nothing.  `recv2` is the response the
    nested refresh would read. -/
def tokenAuthenticate (st : CCState) (token : String)
    (recv : Option String) (recv2 : Option String) : CCStep :=
  let send := "token " ++ token
  match recv with
  | none => ⟨.error .timeoutError, [send], st⟩
  | some m =>
    if m = "invalid token" then ⟨.error .ccInvalidToken, [send], st⟩
    else if m = "auth" then
      let r := scopesCall st recv2
      ⟨r.result.map (fun _ => .unit), send :: r.sends, r.state⟩
    else ⟨.ok .unit, [send], st⟩

/- ===== Observation helpers for the serialized fragments ===== -/

/-- The `args.items` list of a serialized ActionBlock. -/
def fragItems (j : JVal) : List JVal :=
  match j with
  | .obj kvs =>
    match findKey kvs "args" with
    | some (.obj akvs) =>
      match findKey akvs "items" with
      | some (.arr xs) => xs
      | _ => []
    | _ => []
  | _ => []

/-- The `slot` field of an item fragment. -/
def fragSlot (j : JVal) : Option JVal :=
  match j with
  | .obj kvs => findKey kvs "slot"
  | _ => none

/-- A field of the `item.data` object of an item fragment. -/
def fragDataField (j : JVal) (k : String) : Option JVal :=
  match j with
  | .obj kvs =>
    match findKey kvs "item" with
    | some (.obj ikvs) =>
      match findKey ikvs "data" with
      | some (.obj dkvs) => findKey dkvs k
      | _ => none
    | _ => none
  | _ => none

/-- Whether an item fragment carries the BlockTag tag `bl_tag`. -/
def isTagFrag (j : JVal) : Bool :=
  match j with
  | .obj kvs =>
    match findKey kvs "item" with
    | some (.obj ikvs) =>
      match findKey ikvs "id" with
      | some v => jvalIsStr v "bl_tag"
      | none => false
    | _ => false
  | _ => false

/-- The BlockTag fragments `CodeBlock.to_json` emits, described directly:
    the j-th BlockTag (counting from `tags`) is serialized at index
    `26 - tags - j` and stamped. -/
def tagSpec (action blockValue : String) : List Item → Nat → List JVal
  | [], _ => []
  | i :: rest, tags =>
    stampTag (i.to_json (26 - (tags : Int)))
        (if action ≠ "" then action else "dynamic") blockValue
      :: tagSpec action blockValue rest (tags + 1)

theorem isTagFrag_to_json (i : Item) (idx : Int) :
    isTagFrag (i.to_json idx) = i.isBlockTag := by
  cases i <;> rfl

theorem isTagFrag_stamp (t o : String) (s idx : Int) (a c : String) :
    isTagFrag (stampTag ((Item.blockTag t o s).to_json idx) a c) = true := by
  rfl

theorem Item.isBlockTag_iff (i : Item) :
    i.isBlockTag = true ↔ ∃ t o s, i = .blockTag t o s := by
  cases i <;> simp [Item.isBlockTag]

theorem argsToJson_filter (action blockValue : String) :
    ∀ (items : List Item) (idx tags : Nat),
      (argsToJson action blockValue items idx tags).filter isTagFrag =
        tagSpec action blockValue (items.filter Item.isBlockTag) tags := by
  intro items
  induction items with
  | nil => intro idx tags; rfl
  | cons i rest ih =>
    intro idx tags
    by_cases hi : i.isBlockTag = true
    · obtain ⟨t, o, s, rfl⟩ := (Item.isBlockTag_iff i).1 hi
      simp only [argsToJson, Item.isBlockTag, if_pos, List.filter_cons,
        isTagFrag_stamp, tagSpec, ih]
    · have hi' : i.isBlockTag = false := by
        revert hi; cases i.isBlockTag <;> simp
      simp only [argsToJson, hi', Bool.false_eq_true, if_neg, not_false_iff,
        List.filter_cons, isTagFrag_to_json, ih]

/- ===== Claim theorems ===== -/

/-- Concrete template used for the C1 failing input: a single ActionBlock
    `CodeBlock(PLAYER_ACTION, "SendMessage")` with no arguments. -/
def c1Template : Template :=
  ⟨[.codeblock ⟨.PLAYER_ACTION, "SendMessage", .AUTO, [], []⟩], none⟩

/-- C1: the claim states `Template.from_json(Template.to_json(t)) == t` for
    every representable Template.  The code cannot satisfy this for any
    template containing an ActionBlock: `CodeBlock.from_json` ends with
    `for k, v in json:` which iterates the dict's keys and tuple-unpacks
    each, raising ValueError on the required 5-character key "block".  Here
    the round trip on the one-block template raises ValueError instead of
    returning an equal template; `Template.decompress(Template.compress(t))`
    parses back to the identical document and fails in the same call. -/
theorem c1_roundtrip_decode_raises :
    Template.from_json c1Template.to_json.1 = .error .valueError := rfl

/-- C2 failing inputs: a vanilla Sound and a Parameter without a default. -/
def c2Sound : Item := .sound "pling" 1 2 false (-1)

def c2Parameter : Item := .parameter "x" .STRING false none none none (-1)

/-- C2: the claim states `Item.from_json(i.to_json()) == i` for every Item.
    `Sound._getdata` emits the volume under the key "vol" but
    `Sound.from_json` reads `json["volume"]`, so every Sound round trip
    raises KeyError("volume"); `Parameter.from_json` inverts the `optional`
    flag (`None if not json["optional"] else ...`), so a Parameter without a
    default raises KeyError("default_value") (and one with a default decodes
    with its default stripped). -/
theorem c2_item_roundtrip_raises :
    Item.from_json (c2Sound.to_json 0) = .error (.keyError "volume") ∧
    Item.from_json (c2Parameter.to_json 0)
      = .error (.keyError "default_value") := ⟨rfl, rfl⟩

/-- C3: every gated command checks its required scope before sending: when
    the scope is not in the session's scope set, the call raises
    `CCOutOfScopeError`, writes nothing to the socket, and leaves the
    session state unchanged. -/
theorem c3_scope_gate_no_send (ext : ExternalFns) (cmd : GatedCmd)
    (st : CCState) (recv : Option String)
    (h : CCAuthScopes.flagIn cmd.scope st.scopes = false) :
    (runGated ext cmd st recv).result
        = .error (.ccOutOfScope
            ("The action require scope " ++ cmd.scope.flagName ++ ".")) ∧
    (runGated ext cmd st recv).sends = [] ∧
    (runGated ext cmd st recv).state = st := by
  cases cmd <;>
    simp_all [runGated, requireScope, GatedCmd.scope, CCAuthScopes.flagIn,
      CCAuthScopes.DEFAULT, CCAuthScopes.INVENTORY, CCAuthScopes.MOVEMENT,
      CCAuthScopes.READ_PLOT, CCAuthScopes.WRITE_CODE, CCAuthScopes.CLEAR_PLOT]

/-- C3 witness: the inventory read on a fresh session (default scope only)
    fails with the out-of-scope error and sends nothing. -/
theorem c3_scope_gate_no_send_witness :
    (runGated ⟨id, fun _ => [], fun _ => .error .typeError,
        fun _ => .error .typeError⟩ .invGet CCState.init none).result
        = .error (.ccOutOfScope "The action require scope INVENTORY.") ∧
    (runGated ⟨id, fun _ => [], fun _ => .error .typeError,
        fun _ => .error .typeError⟩ .invGet CCState.init none).sends = [] ∧
    (runGated ⟨id, fun _ => [], fun _ => .error .typeError,
        fun _ => .error .typeError⟩ .invGet CCState.init none).state
        = CCState.init := by
  exact c3_scope_gate_no_send _ .invGet CCState.init none rfl

/-- C6: decoding `{"block": "call_func", "action": "x"}` (no `data` key)
    does not raise the missing-data validation error the claim requires —
    the tuple at src/df/code.py line 144 lists "func" twice and omits
    "call_func", contradicting the class docstring; the call instead
    reaches the extras loop and dies with ValueError.  The same input with
    "func" in place of "call_func" raises the documented validation
    error. -/
theorem c6_call_func_data_not_required :
    CodeBlock.from_json [("block", .str "call_func"), ("action", .str "x")]
        = .error .valueError ∧
    CodeBlock.from_json [("block", .str "func"), ("action", .str "x")]
        = .error (.malformedCodeBlock "No \x27data\x27 key present.") :=
  ⟨rfl, rfl⟩

/-- C7 counterexample: the claim says a scope-upgrade request that receives
    no response within the timeout surfaces no error; the code does not
    guard the receive, so `TimeoutError` propagates to the caller (as the
    method's own docstring documents). -/
theorem c7_timeout_raises :
    (scopesRequest CCState.init CCAuthScopes.INVENTORY none).result
      = .error .timeoutError := rfl

/-- C7 amended: an "auth"-containing response within the timeout commits
    exactly the requested set; any other response leaves the scope set
    unchanged and surfaces no error; a timeout leaves the scope set
    unchanged but raises TimeoutError. -/
theorem c7_scope_request_amended (st : CCState) (req : CCAuthScopes)
    (recv : Option String) :
    (scopesRequest st req recv).result
        = (match recv with
           | none => .error .timeoutError
           | some _ => .ok .unit) ∧
    (scopesRequest st req recv).state.scopes
        = (match recv with
           | none => st.scopes
           | some m => if containsAuth m then req else st.scopes) ∧
    (scopesRequest st req recv).state.placeCompact = st.placeCompact := by
  cases recv with
  | none => exact ⟨rfl, rfl, rfl⟩
  | some m =>
    by_cases h : containsAuth m <;> simp [scopesRequest, h]

/-- C8: for the fire-and-forget commands (give and setinv), a timed-out
    receive completes normally, while the literal response
    "not creative mode" raises `SendToMinecraftError`.  The setinv parts
    assume the inventory scope so that the gate passes. -/
theorem c8_fire_and_forget (ext : ExternalFns) (st : CCState) (item : String)
    (items : List String)
    (hscope : CCAuthScopes.flagIn .INVENTORY st.scopes = true) :
    (ccGive st item none).result = .ok .unit ∧
    (ccGive st item (some "not creative mode")).result
        = .error (.sendToMinecraft "The player is not in creative mode.") ∧
    (runGated ext (.invSet items) st none).result = .ok .unit ∧
    (runGated ext (.invSet items) st (some "not creative mode")).result
        = .error (.sendToMinecraft "The player is not in creative mode.") := by
  have hi : st.scopes.hasInventory = true := by
    revert hscope; simp [CCAuthScopes.flagIn, CCAuthScopes.INVENTORY]
  refine ⟨rfl, rfl, ?_, ?_⟩ <;>
    simp [runGated, requireScope, GatedCmd.scope, hi,
      CCAuthScopes.flagIn, CCAuthScopes.DEFAULT, CCAuthScopes.INVENTORY]

/-- C8 witness at a session holding the inventory scope. -/
theorem c8_fire_and_forget_witness :
    (ccGive ⟨⟨true, true, false, false, false, false⟩, false⟩ "nbt" none).result
        = .ok .unit ∧
    (runGated ⟨id, fun _ => [], fun _ => .error .typeError,
          fun _ => .error .typeError⟩ (.invSet [])
        ⟨⟨true, true, false, false, false, false⟩, false⟩
        (some "not creative mode")).result
        = .error (.sendToMinecraft "The player is not in creative mode.") := by
  have h := c8_fire_and_forget
    ⟨id, fun _ => [], fun _ => .error .typeError, fun _ => .error .typeError⟩
    ⟨⟨true, true, false, false, false, false⟩, false⟩ "nbt" [] rfl
  exact ⟨h.1, h.2.2.2⟩

/-- C9 counterexample: a granted scope-upgrade request for the inventory
    scope alone replaces `_scopes` with exactly the requested set, silently
    dropping the DEFAULT scope — the claimed invariant fails. -/
theorem c9_request_drops_default :
    (scopesRequest CCState.init CCAuthScopes.INVENTORY
      (some "auth")).state.scopes.hasDefault = false := rfl

/-- Scope refresh always rebuilds the set starting from DEFAULT, so the
    default bit survives every outcome of `scopes()`. -/
theorem scopesCall_keeps_default (st : CCState) (recv : Option String)
    (h : st.scopes.hasDefault = true) :
    (scopesCall st recv).state.scopes.hasDefault = true := by
  cases recv with
  | none => exact h
  | some m =>
    simp only [scopesCall]
    split_ifs <;> rfl

/-- C9 amended: the DEFAULT scope is in the session scope set at connection
    open and is preserved by scope refresh and by token reauthentication;
    the scope-upgrade request preserves it only when the requested set
    itself contains DEFAULT (a granted request replaces the set wholesale,
    see the counterexample). -/
theorem c9_default_scope_amended :
    CCState.init.scopes.hasDefault = true ∧
    (∀ st recv, st.scopes.hasDefault = true →
      (scopesCall st recv).state.scopes.hasDefault = true) ∧
    (∀ st tok recv recv2, st.scopes.hasDefault = true →
      (tokenAuthenticate st tok recv recv2).state.scopes.hasDefault = true) ∧
    (∀ st req recv, st.scopes.hasDefault = true → req.hasDefault = true →
      (scopesRequest st req recv).state.scopes.hasDefault = true) := by
  refine ⟨rfl, fun st recv h => scopesCall_keeps_default st recv h,
    ?_, ?_⟩
  · intro st tok recv recv2 h
    cases recv with
    | none => exact h
    | some m =>
      by_cases hiv : m = "invalid token"
      · simp [tokenAuthenticate, hiv, h]
      · by_cases ha : m = "auth"
        · simp only [tokenAuthenticate, hiv, ha, if_false, if_true,
            if_neg, if_pos]
          exact scopesCall_keeps_default st recv2 h
        · simp [tokenAuthenticate, hiv, ha, h]
  · intro st req recv h hreq
    cases recv with
    | none => exact h
    | some m =>
      by_cases ha : containsAuth m <;> simp [scopesRequest, ha, h, hreq]

/-- C9 witness: preservation instantiated at concrete calls. -/
theorem c9_default_scope_amended_witness :
    (scopesCall CCState.init (some "write_code")).state.scopes.hasDefault
      = true ∧
    (tokenAuthenticate CCState.init "tok" (some "auth")
      (some "inventory")).state.scopes.hasDefault = true ∧
    (scopesRequest CCState.init ⟨true, true, false, false, false, false⟩
      (some "auth")).state.scopes.hasDefault = true := by
  refine ⟨c9_default_scope_amended.2.1 _ _ rfl,
    c9_default_scope_amended.2.2.1 CCState.init "tok" (some "auth")
      (some "inventory") rfl,
    c9_default_scope_amended.2.2.2 CCState.init _ (some "auth") rfl rfl⟩

/- ===== C5: BlockTag slot assignment ===== -/

theorem findKey_setKey_ne (kvs : List (String × JVal)) (k k2 : String)
    (v : JVal) (h : k2 ≠ k) : findKey (setKey kvs k2 v) k = findKey kvs k := by
  induction kvs with
  | nil => simp [setKey, findKey, h]
  | cons kv rest ih =>
    by_cases hk : kv.1 = k2
    · simp [setKey, hk, findKey, h]
    · obtain ⟨k1, v1⟩ := kv
      simp only [setKey, findKey]
      simp only at hk
      rw [if_neg hk]
      simp only [findKey]
      by_cases h1 : k1 = k
      · simp [h1]
      · simp [h1, ih]

theorem findKey_foldl_setKey (extras : List (String × JVal)) (k : String)
    (hex : ∀ kv ∈ extras, kv.1 ≠ k) :
    ∀ kvs, findKey (extras.foldl (fun d kv => setKey d kv.1 kv.2) kvs) k
      = findKey kvs k := by
  induction extras with
  | nil => intro kvs; rfl
  | cons kv rest ih =>
    intro kvs
    simp only [List.foldl_cons]
    rw [ih (fun kv2 h2 => hex kv2 (List.mem_cons_of_mem kv h2)),
      findKey_setKey_ne _ _ _ _ (hex kv (List.mem_cons_self kv rest))]

/-- The `args.items` list of the document `CodeBlock.to_json` emits is the
    serialization loop's output, provided no extra attribute overrides the
    `args` key. -/
theorem fragItems_to_json (b : CodeBlock)
    (hextras : ∀ kv ∈ b.extras, kv.1 ≠ "args") :
    fragItems b.to_json.1
      = argsToJson b.action b.category.value
          ((parseValues b.args).map PyArg.parseValue) 0 0 := by
  simp only [CodeBlock.to_json, fragItems]
  rw [findKey_foldl_setKey _ _ hextras]
  by_cases hsel : b.selection = .AUTO
  · simp [hsel, findKey]
  · simp only [hsel, ne_eq, not_false_iff, if_pos]
    rw [findKey_setKey_ne _ _ _ _ (by decide)]
    simp [findKey]

theorem stampTag_blockTag_fields (t o : String) (s idx : Int) (a c : String) :
    fragSlot (stampTag ((Item.blockTag t o s).to_json idx) a c)
        = some (.int (if s = -1 then idx else s)) ∧
    fragDataField (stampTag ((Item.blockTag t o s).to_json idx) a c) "action"
        = some (.str a) ∧
    fragDataField (stampTag ((Item.blockTag t o s).to_json idx) a c) "block"
        = some (.str c) :=
  ⟨rfl, rfl, rfl⟩

/-- Indexing into the spec of stamped BlockTag fragments: the j-th fragment
    (counting slots down from `26 - tags`) serializes the j-th item. -/
theorem tagSpec_fields (a c : String) :
    ∀ (items : List Item) (tags j : Nat) (d : Item),
      (∀ i ∈ items, i.isBlockTag = true) → j < items.length →
      fragSlot ((tagSpec a c items tags).getD j .null)
          = some (.int (if (items.getD j d).slotOf = -1
              then 26 - ((tags + j : Nat) : Int) else (items.getD j d).slotOf)) ∧
      fragDataField ((tagSpec a c items tags).getD j .null) "action"
          = some (.str (if a ≠ "" then a else "dynamic")) ∧
      fragDataField ((tagSpec a c items tags).getD j .null) "block"
          = some (.str c) := by
  intro items
  induction items with
  | nil => intro tags j d _ hj; simp at hj
  | cons i rest ih =>
    intro tags j d hall hj
    cases j with
    | zero =>
      obtain ⟨t, o, s, rfl⟩ :=
        (Item.isBlockTag_iff i).1 (hall i (List.mem_cons_self i rest))
      simpa [tagSpec] using
        stampTag_blockTag_fields t o s (26 - (tags : Int))
          (if a ≠ "" then a else "dynamic") c
    | succ j =>
      have h := ih (tags + 1) j d
        (fun x hx => hall x (List.mem_cons_of_mem i hx))
        (by simpa using hj)
      have harith : ((tags + 1 + j : Nat) : Int) = ((tags + (j + 1) : Nat) : Int) := by
        push_cast; ring
      rw [harith] at h
      simpa [tagSpec] using h

/-- C5 counterexample block: one BlockTag argument constructed with the
    explicit slot 3. -/
def c5Block : CodeBlock :=
  ⟨.PLAYER_ACTION, "act", .AUTO, [.item (.blockTag "t" "o" 3)], []⟩

/-- C5 counterexample: the claim assigns the 0-th BlockTag slot `26 - 0`,
    but `Item.to_json` lets an explicit slot win over the passed index
    (`index if self.slot == -1 else self.slot`), so a BlockTag constructed
    with slot 3 is emitted at slot 3, not 26. -/
theorem c5_explicit_slot_counterexample :
    fragSlot ((fragItems c5Block.to_json.1).getD 0 .null) = some (.int 3) ∧
    fragSlot ((fragItems c5Block.to_json.1).getD 0 .null)
      ≠ some (.int (26 - 0)) := by
  have h3 : fragSlot ((fragItems c5Block.to_json.1).getD 0 .null)
      = some (.int 3) := rfl
  refine ⟨h3, fun h => ?_⟩
  rw [h3] at h
  simp at h

/-- C5 amended: in the document an ActionBlock serializes to (with extras
    not overriding `args`), the j-th BlockTag fragment carries slot `26 - j`
    when that BlockTag has the default slot `-1` — a BlockTag with an
    explicit slot keeps it — and its data is stamped with the block's
    action (`"dynamic"` when the action is empty) and category value. -/
theorem c5_blocktag_slots_amended (b : CodeBlock)
    (hextras : ∀ kv ∈ b.extras, kv.1 ≠ "args") (j : Nat)
    (hj : j < (((parseValues b.args).map PyArg.parseValue).filter
        Item.isBlockTag).length) :
    fragSlot (((fragItems b.to_json.1).filter isTagFrag).getD j .null)
        = some (.int
            (if (((parseValues b.args).map PyArg.parseValue).filter
                  Item.isBlockTag |>.getD j (.blockTag "" "" (-1))).slotOf = -1
             then 26 - (j : Int)
             else (((parseValues b.args).map PyArg.parseValue).filter
                  Item.isBlockTag |>.getD j (.blockTag "" "" (-1))).slotOf)) ∧
    fragDataField (((fragItems b.to_json.1).filter isTagFrag).getD j .null)
        "action"
        = some (.str (if b.action ≠ "" then b.action else "dynamic")) ∧
    fragDataField (((fragItems b.to_json.1).filter isTagFrag).getD j .null)
        "block"
        = some (.str b.category.value) := by
  rw [fragItems_to_json b hextras, argsToJson_filter]
  have h := tagSpec_fields b.action b.category.value
    (((parseValues b.args).map PyArg.parseValue).filter Item.isBlockTag)
    0 j (.blockTag "" "" (-1))
    (fun i hi => List.of_mem_filter hi) hj
  simpa using h

/-- C5 witness block: one default-slot BlockTag argument. -/
def c5WitnessBlock : CodeBlock :=
  ⟨.PLAYER_ACTION, "act", .AUTO, [.item (.blockTag "t" "o" (-1))], []⟩

/-- C5 witness: the single default-slot BlockTag lands at slot 26 with the
    owning block's action and category stamped into its data. -/
theorem c5_blocktag_slots_amended_witness :
    fragSlot (((fragItems c5WitnessBlock.to_json.1).filter isTagFrag).getD 0
        .null) = some (.int 26) ∧
    fragDataField (((fragItems c5WitnessBlock.to_json.1).filter
        isTagFrag).getD 0 .null) "action" = some (.str "act") ∧
    fragDataField (((fragItems c5WitnessBlock.to_json.1).filter
        isTagFrag).getD 0 .null) "block" = some (.str "player_action") := by
  have h := c5_blocktag_slots_amended c5WitnessBlock
    (fun kv hkv => absurd hkv (List.not_mem_nil kv)) 0 (by decide)
  simpa using h

/- ===== C10: the to_json frame effect ===== -/

theorem getD_map_of_lt {α β : Type} (f : α → β) (l : List α) (k : Nat)
    (d : β) (d2 : α) (h : k < l.length) :
    (l.map f).getD k d = f (l.getD k d2) := by
  induction l generalizing k with
  | nil => simp at h
  | cons a t ih =>
    cases k with
    | zero => rfl
    | succ k =>
      simp only [List.map_cons, List.getD_cons_succ]
      exact ih k (by simpa using h)

theorem parseValues_map_parseValue (args : List PyArg) :
    (parseValues args).map PyArg.parseValue = args.map PyArg.parseValue := by
  simp only [parseValues, List.map_map]
  rfl

/-- A non-BlockTag entry at position k of the serialization loop is emitted
    as its own `to_json` at index `idx + k`. -/
theorem argsToJson_getD_nontag (a c : String) (d : Item) :
    ∀ (items : List Item) (idx tags k : Nat), k < items.length →
      (items.getD k d).isBlockTag = false →
      (argsToJson a c items idx tags).getD k .null
        = (items.getD k d).to_json ((idx + k : Nat) : Int) := by
  intro items
  induction items with
  | nil => intro idx tags k hk; simp at hk
  | cons i rest ih =>
    intro idx tags k hk htag
    cases k with
    | zero =>
      simp only [List.getD_cons_zero] at htag ⊢
      simp only [argsToJson, htag, Bool.false_eq_true, if_neg,
        not_false_iff, List.getD_cons_zero, Nat.add_zero]
    | succ k =>
      simp only [List.getD_cons_succ] at htag ⊢
      have harith : ((idx + 1 + k : Nat) : Int) = ((idx + (k + 1) : Nat) : Int) := by
        push_cast; ring
      by_cases hi : i.isBlockTag = true
      · simp only [argsToJson, hi, if_pos, List.getD_cons_succ]
        rw [ih (idx + 1) (tags + 1) k (by simpa using hk) htag, harith]
      · have hi' : i.isBlockTag = false := by
          revert hi; cases i.isBlockTag <;> simp
        simp only [argsToJson, hi', Bool.false_eq_true, if_neg,
          not_false_iff, List.getD_cons_succ]
        rw [ih (idx + 1) tags k (by simpa using hk) htag, harith]

/-- Default raw argument used by the C10 statement. -/
def dfltArg : PyArg := .item (.string "" (-1))

/-- C10: `CodeBlock.to_json` first runs `__parse_values`, whose effect on
    the block is captured in the second component of the model: a bare
    int/float entry is permanently replaced by `Number(value)` and a bare
    string by `String(value)` (both with the default slot `-1`), and that
    entry is serialized as the corresponding item fragment at its argument
    position; Item entries and all other fields are left unchanged. -/
theorem c10_to_json_frame_effect (b : CodeBlock) (k : Nat)
    (hk : k < b.args.length) :
    b.to_json.2.category = b.category ∧
    b.to_json.2.action = b.action ∧
    b.to_json.2.selection = b.selection ∧
    b.to_json.2.extras = b.extras ∧
    b.to_json.2.args.length = b.args.length ∧
    (∀ n, b.args.getD k dfltArg = .rawNum n →
      b.to_json.2.args.getD k dfltArg = .item (.number (.ofInt n) (-1)) ∧
      (argsToJson b.action b.category.value
          ((parseValues b.args).map PyArg.parseValue) 0 0).getD k .null
        = (Item.number (.ofInt n) (-1)).to_json ((k : Nat) : Int)) ∧
    (∀ s, b.args.getD k dfltArg = .rawStr s →
      b.to_json.2.args.getD k dfltArg = .item (.string s (-1)) ∧
      (argsToJson b.action b.category.value
          ((parseValues b.args).map PyArg.parseValue) 0 0).getD k .null
        = (Item.string s (-1)).to_json ((k : Nat) : Int)) ∧
    (∀ i, b.args.getD k dfltArg = .item i →
      b.to_json.2.args.getD k dfltArg = .item i) := by
  have hargs : b.to_json.2.args = parseValues b.args := rfl
  have hget : ∀ x, b.args.getD k dfltArg = x →
      (parseValues b.args).getD k dfltArg = .item x.parseValue := by
    intro x hx
    rw [parseValues,
      getD_map_of_lt (fun a => PyArg.item a.parseValue) b.args k _ dfltArg hk,
      hx]
  have hfrag : ∀ x, b.args.getD k dfltArg = x →
      x.parseValue.isBlockTag = false →
      (argsToJson b.action b.category.value
          ((parseValues b.args).map PyArg.parseValue) 0 0).getD k .null
        = x.parseValue.to_json ((k : Nat) : Int) := by
    intro x hx htag
    rw [parseValues_map_parseValue]
    have hlen : k < (b.args.map PyArg.parseValue).length := by simpa using hk
    have hmap : (b.args.map PyArg.parseValue).getD k
        ((dfltArg : PyArg).parseValue) = x.parseValue := by
      rw [getD_map_of_lt PyArg.parseValue b.args k _ dfltArg hk, hx]
    have h := argsToJson_getD_nontag b.action b.category.value
      ((dfltArg : PyArg).parseValue) (b.args.map PyArg.parseValue) 0 0 k
      hlen (by rw [hmap]; exact htag)
    rw [hmap] at h
    simpa using h
  refine ⟨rfl, rfl, rfl, rfl, by simp [hargs, parseValues], ?_, ?_, ?_⟩
  · intro n hn
    exact ⟨by rw [hargs]; exact hget _ hn, hfrag _ hn rfl⟩
  · intro s hs
    exact ⟨by rw [hargs]; exact hget _ hs, hfrag _ hs rfl⟩
  · intro i hi
    rw [hargs]
    exact hget _ hi

/-- C10 witness block: a bare number, a bare string, and an Item argument. -/
def c10Block : CodeBlock :=
  ⟨.PLAYER_ACTION, "a", .AUTO,
   [.rawNum 5, .rawStr "hi", .item (.string "x" 2)], []⟩

/-- C10 witness: serializing `c10Block` replaces its bare-number first
    argument by `Number(5)` and emits the matching fragment at slot 0. -/
theorem c10_to_json_frame_effect_witness :
    c10Block.to_json.2.args.getD 0 dfltArg
        = .item (.number (.ofInt 5) (-1)) ∧
    (argsToJson c10Block.action c10Block.category.value
        ((parseValues c10Block.args).map PyArg.parseValue) 0 0).getD 0 .null
      = (Item.number (.ofInt 5) (-1)).to_json ((0 : Nat) : Int) ∧
    c10Block.to_json.2.args.getD 2 dfltArg = .item (.string "x" 2) := by
  have h0 := c10_to_json_frame_effect c10Block 0 (by decide)
  have h2 := c10_to_json_frame_effect c10Block 2 (by decide)
  exact ⟨(h0.2.2.2.2.2.1 5 rfl).1, (h0.2.2.2.2.2.1 5 rfl).2,
    h2.2.2.2.2.2.2.2 (.string "x" 2) rfl⟩

/- ===== C4: the 65535-character envelope cap ===== -/

theorem b64encodeAux_replicate (x : Nat) :
    ∀ k, (b64encodeAux (List.replicate (3 * k) x)).length = 4 * k := by
  intro k
  induction k with
  | zero => rfl
  | succ k ih =>
    have h3 : 3 * (k + 1) = 3 * k + 1 + 1 + 1 := by ring
    rw [h3, List.replicate_succ, List.replicate_succ, List.replicate_succ]
    simp only [b64encodeAux, List.length_cons, ih]
    ring

theorem b64encode_length (bytes : List Nat) :
    (b64encode bytes).length = (b64encodeAux bytes).length := rfl

/-- C4: whenever the compressed envelope of a template exceeds 65535
    characters, `Template.compress` raises the size-limit `OverflowError`,
    and the queueing `place` command — which evaluates
    `template.compress()` before `socket.send` — writes nothing to the
    socket in any session state. -/
theorem c4_compress_overflow_no_send (ext : ExternalFns) (t : Template)
    (h : (t.envelope ext.gzipCompress).length > 65535) :
    Template.compress ext.gzipCompress t = .error .overflowError ∧
    ∀ st recv, (runGated ext (.placePlace t) st recv).sends = [] := by
  have hc : Template.compress ext.gzipCompress t = .error .overflowError := by
    simp [Template.compress, h]
  refine ⟨hc, fun st recv => ?_⟩
  simp only [runGated]
  cases hreq : requireScope (GatedCmd.placePlace t).scope st.scopes with
  | error e => rfl
  | ok u => simp [hc]

/-- The C4 witness instantiates `gzip.compress` with a function producing
    49152 = 3 * 16384 bytes, whose base64 form has exactly 65536
    characters. -/
def c4Ext : ExternalFns :=
  ⟨fun _ => List.replicate 49152 65, fun _ => [],
   fun _ => .error .typeError, fun _ => .error .typeError⟩

def c4Template : Template := ⟨[], none⟩

/-- C4 witness: the empty template under the padding compressor overflows
    and `place` sends nothing. -/
theorem c4_compress_overflow_no_send_witness :
    Template.compress c4Ext.gzipCompress c4Template = .error .overflowError ∧
    (runGated c4Ext (.placePlace c4Template) CCState.init none).sends = [] := by
  have hlen : (c4Template.envelope c4Ext.gzipCompress).length > 65535 := by
    have h1 : c4Template.envelope c4Ext.gzipCompress
        = b64encode (List.replicate (3 * 16384) 65) := rfl
    rw [h1, b64encode_length, b64encodeAux_replicate]
    norm_num
  exact ⟨(c4_compress_overflow_no_send c4Ext c4Template hlen).1,
    (c4_compress_overflow_no_send c4Ext c4Template hlen).2 CCState.init none⟩
